import Mathlib

/-!
Verification of the task-offloading formula library (`utils.py`).

The module is a flat collection of pure scalar formulas for latency and
energy in a three-tier offloading model (local device, MEC server, idle
device).  Every function is embedded here over the exact rationals `ℚ`
except the Shannon-rate formula, which uses a real base-2 logarithm and is
embedded over `ℝ`.  Python raises `ZeroDivisionError` on a zero
denominator and `math.log2` raises `ValueError` on a non-positive
argument; the corresponding embeddings return `Option` values, with `none`
modelling the raised error and `some r` a normal return of `r`.
-/

/-- Eq. 3: partial local execution time, `(1 - x) * C * d / F`.
`none` models Python's `ZeroDivisionError` when `F = 0`. -/
def calculate_task_execution_time_on_local (C d F x : ℚ) : Option ℚ :=
  if F = 0 then none else some ((1 - x) * C * d / F)

/-- Eq. 1: full local execution time, the partial formula at `x = 0`. -/
def calculate_full_task_execution_time_on_local (C d F : ℚ) : Option ℚ :=
  calculate_task_execution_time_on_local C d F 0

/-- Eq. 4: partial local energy, `b * (1 - x) * theta_exe` with `b = C * d`. -/
def calculate_task_execution_energy_consumption_on_local
    (C d theta_exe x : ℚ) : ℚ :=
  C * d * (1 - x) * theta_exe

/-- Eq. 2: full local energy, the partial formula at `x = 0`. -/
def calculate_full_task_execution_energy_consumption_on_local
    (C d theta_exe : ℚ) : ℚ :=
  calculate_task_execution_energy_consumption_on_local C d theta_exe 0

/-- Eq. 5: MEC execution time `C * (1 - omega) * I / f` with `I = x * d`.
`none` models `ZeroDivisionError` when `f = 0`. -/
def calculate_partial_task_execution_time_on_mec
    (x d omega C f : ℚ) : Option ℚ :=
  if f = 0 then none else some (C * (1 - omega) * (x * d) / f)

/-- Eq. 6: MEC energy `C * (1 - omega) * I * theta_exe` with `I = x * d`. -/
def calculate_partial_task_execution_energy_consumption_on_mec
    (x d omega C theta_exe : ℚ) : ℚ :=
  C * (1 - omega) * (x * d) * theta_exe

/-- Eq. 7: ID execution time `C * omega * I / f_id` with `I = x * d`.
`none` models `ZeroDivisionError` when `f_id = 0`. -/
def calculate_partial_task_execution_time_on_id
    (C omega x d f_id : ℚ) : Option ℚ :=
  if f_id = 0 then none else some (C * omega * (x * d) / f_id)

/-- Eq. 8: ID energy `C * omega * I * theta_exe` with `I = x * d`. -/
def calculate_partial_task_execution_energy_consumption_on_ID
    (C omega x d theta_exe : ℚ) : ℚ :=
  C * omega * (x * d) * theta_exe

/-- Eq. 9: SINR for the EU-to-BS link,
`P_tran_i_bs * G_i_bs / (sigma_sq + interference_sum)`.
`none` models `ZeroDivisionError` when the denominator is zero. -/
def calculate_sinr_eu_to_bs
    (P_tran_i_bs G_i_bs sigma_sq interference_sum : ℚ) : Option ℚ :=
  if sigma_sq + interference_sum = 0 then none
  else some (P_tran_i_bs * G_i_bs / (sigma_sq + interference_sum))

/-- Eq. 10: SINR for the BS-to-ID link, `P_tran_bs_j * G_bs_j / sigma_sq`.
`none` models `ZeroDivisionError` when `sigma_sq = 0`. -/
def calculate_sinr_bs_to_id (P_tran_bs_j G_bs_j sigma_sq : ℚ) : Option ℚ :=
  if sigma_sq = 0 then none else some (P_tran_bs_j * G_bs_j / sigma_sq)

/-- Eq. 11-12: Shannon transmission rate `B_m * log2 (1 + sinr)`.
`none` models the `ValueError` that `math.log2` raises on a non-positive
argument, i.e. when `1 + sinr ≤ 0`. -/
noncomputable def calculate_transmission_rate (B_m sinr : ℝ) : Option ℝ :=
  if 1 + sinr ≤ 0 then none else some (B_m * Real.logb 2 (1 + sinr))

/-- Eq. 13: EU-to-BS transmission time `(x * d) / R_i_bs`.
`none` models `ZeroDivisionError` when `R_i_bs = 0`. -/
def calculate_eu_to_bs_transmission_time (x d R_i_bs : ℚ) : Option ℚ :=
  if R_i_bs = 0 then none else some (x * d / R_i_bs)

/-- Eq. 15: BS-to-ID transmission time `(omega * x * d) / R_bs_j`.
`none` models `ZeroDivisionError` when `R_bs_j = 0`. -/
def calculate_bs_to_id_transmission_time (omega x d R_bs_j : ℚ) : Option ℚ :=
  if R_bs_j = 0 then none else some (omega * x * d / R_bs_j)

/-- Eq. 14: EU transmission energy `P_tran_i_bs * t_tran_i_bs * theta_tran`. -/
def calculate_eu_transmission_energy
    (P_tran_i_bs t_tran_i_bs theta_tran : ℚ) : ℚ :=
  P_tran_i_bs * t_tran_i_bs * theta_tran

/-- Eq. 16: BS transmission energy `P_tran_bs_j * t_tran_bs_j * theta_tran`. -/
def calculate_bs_transmission_energy
    (P_tran_bs_j t_tran_bs_j theta_tran : ℚ) : ℚ :=
  P_tran_bs_j * t_tran_bs_j * theta_tran

/-- Eq. 17: offloading delay `t_tran_i_bs + max (t_mec, t_id + t_tran_bs_j)`. -/
def calculate_offloading_delay (t_tran_i_bs t_mec t_id t_tran_bs_j : ℚ) : ℚ :=
  t_tran_i_bs + max t_mec (t_id + t_tran_bs_j)

/-- Eq. 18: total task completion time `max (t_local, t_off)`. -/
def calculate_total_task_time (t_local t_off : ℚ) : ℚ :=
  max t_local t_off

/-- C1: for `C, d ≥ 0`, `F > 0`, `x ∈ [0,1]`, the partial local execution
time is `(1 - x) * C * d / F`; at `C = 1000`, `d = 10^6`, `F = 10^9`,
`x = 3/10` it is `7/10`, and the full local time there is `1`. -/
theorem local_time_formula (C d F x : ℚ) (hC : 0 ≤ C) (hd : 0 ≤ d)
    (hF : 0 < F) (hx0 : 0 ≤ x) (hx1 : x ≤ 1) :
    calculate_task_execution_time_on_local C d F x
      = some ((1 - x) * C * d / F) ∧
    calculate_task_execution_time_on_local 1000 1000000 1000000000 (3 / 10)
      = some (7 / 10) ∧
    calculate_full_task_execution_time_on_local 1000 1000000 1000000000
      = some 1 := by
  refine ⟨?_, ?_, ?_⟩
  · unfold calculate_task_execution_time_on_local
    rw [if_neg hF.ne']
  · unfold calculate_task_execution_time_on_local
    rw [if_neg (by norm_num : (1000000000 : ℚ) ≠ 0)]
    norm_num
  · unfold calculate_full_task_execution_time_on_local
      calculate_task_execution_time_on_local
    rw [if_neg (by norm_num : (1000000000 : ℚ) ≠ 0)]
    norm_num

/-- Witness for C1 at the concrete scenario of the spec. -/
theorem local_time_formula_witness :
    calculate_task_execution_time_on_local 1000 1000000 1000000000 (3 / 10)
      = some (7 / 10) :=
  (local_time_formula 1000 1000000 1000000000 (3 / 10) (by norm_num)
    (by norm_num) (by norm_num) (by norm_num) (by norm_num)).2.1

/-- C2: on the valid domain, the full local time and energy are the partial
formulas evaluated at the boundary ratio `x = 0`. -/
theorem full_variants_boundary (C d F theta_exe : ℚ) (hC : 0 ≤ C)
    (hd : 0 ≤ d) (hF : 0 < F) (ht : 0 ≤ theta_exe) :
    calculate_full_task_execution_time_on_local C d F
      = calculate_task_execution_time_on_local C d F 0 ∧
    calculate_full_task_execution_energy_consumption_on_local C d theta_exe
      = calculate_task_execution_energy_consumption_on_local C d theta_exe 0 :=
  ⟨rfl, rfl⟩

/-- Witness for C2 at concrete inputs. -/
theorem full_variants_boundary_witness :
    calculate_full_task_execution_time_on_local 1 1 1
      = calculate_task_execution_time_on_local 1 1 1 0 ∧
    calculate_full_task_execution_energy_consumption_on_local 1 1 1
      = calculate_task_execution_energy_consumption_on_local 1 1 1 0 :=
  full_variants_boundary 1 1 1 1 (by norm_num) (by norm_num) (by norm_num)
    (by norm_num)

/-- C4: the offloading delay is `t_tran_i_bs + max (t_mec, t_id + t_tran_bs_j)`
for all inputs, and equals `3/5` at the spec's concrete scenario. -/
theorem offloading_delay_formula (t_tran_i_bs t_mec t_id t_tran_bs_j : ℚ) :
    calculate_offloading_delay t_tran_i_bs t_mec t_id t_tran_bs_j
      = t_tran_i_bs + max t_mec (t_id + t_tran_bs_j) ∧
    calculate_offloading_delay (1 / 10) (1 / 2) (1 / 5) (1 / 20) = 3 / 5 := by
  refine ⟨rfl, ?_⟩
  unfold calculate_offloading_delay
  rw [max_eq_left (by norm_num : (1 / 5 + 1 / 20 : ℚ) ≤ 1 / 2)]
  norm_num

/-- C5: the total task time is the maximum of its two arguments and is
idempotent in its second argument. -/
theorem total_task_time_max_idem (a b : ℚ) (ha : 0 ≤ a) (hb : 0 ≤ b) :
    calculate_total_task_time a b = max a b ∧
    calculate_total_task_time a (calculate_total_task_time a b)
      = calculate_total_task_time a b := by
  refine ⟨rfl, ?_⟩
  show max a (max a b) = max a b
  rw [← max_assoc, max_self]

/-- Witness for C5 at `a = 1`, `b = 2`. -/
theorem total_task_time_max_idem_witness :
    calculate_total_task_time 1 2 = max 1 2 ∧
    calculate_total_task_time 1 (calculate_total_task_time 1 2)
      = calculate_total_task_time 1 2 :=
  total_task_time_max_idem 1 2 (by norm_num) (by norm_num)

/-- C9: the EU and BS transmission-energy functions are extensionally equal,
both computing `power * time * theta_tran`. -/
theorem transmission_energy_functions_equal (P t theta_tran : ℚ) :
    calculate_eu_transmission_energy P t theta_tran
      = calculate_bs_transmission_energy P t theta_tran ∧
    calculate_eu_transmission_energy P t theta_tran = P * t * theta_tran :=
  ⟨rfl, rfl⟩

/-- C10: the MEC and ID energy shares of the offloaded slice sum to
`C * x * d * theta_exe`, independently of `omega`. -/
theorem offloaded_energy_conservation (C d x omega theta_exe : ℚ) :
    calculate_partial_task_execution_energy_consumption_on_mec
        x d omega C theta_exe
      + calculate_partial_task_execution_energy_consumption_on_ID
          C omega x d theta_exe
      = C * x * d * theta_exe := by
  unfold calculate_partial_task_execution_energy_consumption_on_mec
    calculate_partial_task_execution_energy_consumption_on_ID
  ring

/-- C6: on the valid domain, the EU-to-BS SINR is
`P * G / (sigma_sq + interference)`, the BS-to-ID SINR is the same formula
with no interference term, and the concrete scenario evaluates to `100`. -/
theorem sinr_formulas (P G sigma_sq interference_sum : ℚ) (hP : 0 ≤ P)
    (hG : 0 ≤ G) (hs : 0 < sigma_sq) (hi : 0 ≤ interference_sum) :
    calculate_sinr_eu_to_bs P G sigma_sq interference_sum
      = some (P * G / (sigma_sq + interference_sum)) ∧
    calculate_sinr_bs_to_id P G sigma_sq
      = calculate_sinr_eu_to_bs P G sigma_sq 0 ∧
    calculate_sinr_eu_to_bs (1 / 10) (1 / 1000000) (1 / 1000000000) 0
      = some 100 := by
  have hden : sigma_sq + interference_sum ≠ 0 := by positivity
  refine ⟨?_, ?_, ?_⟩
  · unfold calculate_sinr_eu_to_bs
    rw [if_neg hden]
  · unfold calculate_sinr_bs_to_id calculate_sinr_eu_to_bs
    rw [add_zero]
  · unfold calculate_sinr_eu_to_bs
    rw [if_neg (by norm_num : (1 / 1000000000 + 0 : ℚ) ≠ 0)]
    norm_num

/-- Witness for C6 at the spec's concrete scenario. -/
theorem sinr_formulas_witness :
    calculate_sinr_eu_to_bs (1 / 10) (1 / 1000000) (1 / 1000000000) 0
      = some 100 :=
  (sinr_formulas (1 / 10) (1 / 1000000) (1 / 1000000000) 0 (by norm_num)
    (by norm_num) (by norm_num) (by norm_num)).2.2

/-- C7: for `B > 0`, the transmission rate at `sinr = 0` is exactly `0`,
and for `sinr ≥ 0` any returned rate `B * log2 (1 + sinr)` is
non-negative. -/
theorem transmission_rate_zero_nonneg (B_m sinr : ℝ) (hB : 0 < B_m)
    (hs : 0 ≤ sinr) :
    calculate_transmission_rate B_m 0 = some 0 ∧
    ∀ r, calculate_transmission_rate B_m sinr = some r → 0 ≤ r := by
  constructor
  · unfold calculate_transmission_rate
    rw [if_neg (by norm_num : ¬ (1 + 0 : ℝ) ≤ 0)]
    norm_num
  · intro r h
    unfold calculate_transmission_rate at h
    rw [if_neg (by linarith : ¬ (1 + sinr : ℝ) ≤ 0)] at h
    have hr : B_m * Real.logb 2 (1 + sinr) = r := Option.some.inj h
    rw [← hr]
    exact mul_nonneg hB.le
      (Real.logb_nonneg (by norm_num) (by linarith))

/-- Witness for C7 at `B = 1`, `sinr = 0`. -/
theorem transmission_rate_zero_nonneg_witness :
    calculate_transmission_rate 1 0 = some 0 :=
  (transmission_rate_zero_nonneg 1 0 (by norm_num) (by norm_num)).1

/-- C8: domain violations are not silently clamped: a zero rate denominator
makes the EU-to-BS transmission time fail (the `none` of the embedding,
Python's `ZeroDivisionError`), and `sinr ≤ -1` makes the transmission rate
fail (Python's `ValueError` from `log2` on a non-positive argument). -/
theorem domain_violations_fail (x d : ℚ) (B_m sinr : ℝ)
    (hs : sinr ≤ -1) :
    calculate_eu_to_bs_transmission_time x d 0 = none ∧
    calculate_transmission_rate B_m sinr = none := by
  constructor
  · unfold calculate_eu_to_bs_transmission_time
    rw [if_pos rfl]
  · unfold calculate_transmission_rate
    rw [if_pos (by linarith : (1 + sinr : ℝ) ≤ 0)]

/-- Witness for C8 at `x = d = 1`, `B = 1`, `sinr = -2`. -/
theorem domain_violations_fail_witness :
    calculate_eu_to_bs_transmission_time 1 1 0 = none ∧
    calculate_transmission_rate 1 (-2) = none :=
  domain_violations_fail 1 1 1 (-2) (by norm_num)

/-- C3 counterexample: at `C = 1`, `d = 1`, `F = 1`, `x = 2` every input is
non-negative and the denominator `F` is strictly positive, yet the local
execution time is `-1 < 0`, so the non-negativity invariant as worded
(without the bound `x ≤ 1`) is false. -/
theorem nonneg_invariant_counterexample :
    (0 : ℚ) ≤ 1 ∧ (0 : ℚ) ≤ 2 ∧ (0 : ℚ) < 1 ∧
    calculate_task_execution_time_on_local 1 1 1 2 = some (-1) ∧
    ¬ (0 : ℚ) ≤ -1 := by
  refine ⟨by norm_num, by norm_num, by norm_num, ?_, by norm_num⟩
  unfold calculate_task_execution_time_on_local
  rw [if_neg (by norm_num : (1 : ℚ) ≠ 0)]
  norm_num

/-- C3 (amended): every time- or energy-returning function of the library
yields a non-negative result whenever all inputs are non-negative, the
ratio inputs `x` and `omega` lie in `[0, 1]`, and every input appearing in
a denominator is strictly positive. -/
theorem time_energy_nonneg (C d F f f_id theta_exe theta_tran x omega
    R_i_bs R_bs_j P1 P2 t1 t2 t3 t4 a b : ℚ)
    (hC : 0 ≤ C) (hd : 0 ≤ d) (hF : 0 < F) (hf : 0 < f) (hfid : 0 < f_id)
    (hte : 0 ≤ theta_exe) (htt : 0 ≤ theta_tran)
    (hx0 : 0 ≤ x) (hx1 : x ≤ 1) (hw0 : 0 ≤ omega) (hw1 : omega ≤ 1)
    (hR1 : 0 < R_i_bs) (hR2 : 0 < R_bs_j) (hP1 : 0 ≤ P1) (hP2 : 0 ≤ P2)
    (ht1 : 0 ≤ t1) (ht2 : 0 ≤ t2) (ht3 : 0 ≤ t3) (ht4 : 0 ≤ t4)
    (ha : 0 ≤ a) (hb : 0 ≤ b) :
    (∀ t, calculate_task_execution_time_on_local C d F x = some t → 0 ≤ t) ∧
    (∀ t, calculate_full_task_execution_time_on_local C d F = some t →
      0 ≤ t) ∧
    0 ≤ calculate_task_execution_energy_consumption_on_local C d theta_exe x ∧
    0 ≤ calculate_full_task_execution_energy_consumption_on_local
        C d theta_exe ∧
    (∀ t, calculate_partial_task_execution_time_on_mec x d omega C f
      = some t → 0 ≤ t) ∧
    0 ≤ calculate_partial_task_execution_energy_consumption_on_mec
        x d omega C theta_exe ∧
    (∀ t, calculate_partial_task_execution_time_on_id C omega x d f_id
      = some t → 0 ≤ t) ∧
    0 ≤ calculate_partial_task_execution_energy_consumption_on_ID
        C omega x d theta_exe ∧
    (∀ t, calculate_eu_to_bs_transmission_time x d R_i_bs = some t →
      0 ≤ t) ∧
    (∀ t, calculate_bs_to_id_transmission_time omega x d R_bs_j = some t →
      0 ≤ t) ∧
    0 ≤ calculate_eu_transmission_energy P1 t1 theta_tran ∧
    0 ≤ calculate_bs_transmission_energy P2 t4 theta_tran ∧
    0 ≤ calculate_offloading_delay t1 t2 t3 t4 ∧
    0 ≤ calculate_total_task_time a b := by
  have hx' : 0 ≤ 1 - x := by linarith
  have hw' : 0 ≤ 1 - omega := by linarith
  refine ⟨?_, ?_, ?_, ?_, ?_, ?_, ?_, ?_, ?_, ?_, ?_, ?_, ?_, ?_⟩
  · intro t h
    unfold calculate_task_execution_time_on_local at h
    rw [if_neg hF.ne'] at h
    rw [← Option.some.inj h]
    exact div_nonneg (mul_nonneg (mul_nonneg hx' hC) hd) hF.le
  · intro t h
    unfold calculate_full_task_execution_time_on_local
      calculate_task_execution_time_on_local at h
    rw [if_neg hF.ne'] at h
    rw [← Option.some.inj h]
    exact div_nonneg (mul_nonneg (mul_nonneg (by norm_num) hC) hd) hF.le
  · exact mul_nonneg (mul_nonneg (mul_nonneg hC hd) hx') hte
  · unfold calculate_full_task_execution_energy_consumption_on_local
      calculate_task_execution_energy_consumption_on_local
    exact mul_nonneg (mul_nonneg (mul_nonneg hC hd) (by norm_num)) hte
  · intro t h
    unfold calculate_partial_task_execution_time_on_mec at h
    rw [if_neg hf.ne'] at h
    rw [← Option.some.inj h]
    exact div_nonneg
      (mul_nonneg (mul_nonneg hC hw') (mul_nonneg hx0 hd)) hf.le
  · exact mul_nonneg
      (mul_nonneg (mul_nonneg hC hw') (mul_nonneg hx0 hd)) hte
  · intro t h
    unfold calculate_partial_task_execution_time_on_id at h
    rw [if_neg hfid.ne'] at h
    rw [← Option.some.inj h]
    exact div_nonneg
      (mul_nonneg (mul_nonneg hC hw0) (mul_nonneg hx0 hd)) hfid.le
  · exact mul_nonneg
      (mul_nonneg (mul_nonneg hC hw0) (mul_nonneg hx0 hd)) hte
  · intro t h
    unfold calculate_eu_to_bs_transmission_time at h
    rw [if_neg hR1.ne'] at h
    rw [← Option.some.inj h]
    exact div_nonneg (mul_nonneg hx0 hd) hR1.le
  · intro t h
    unfold calculate_bs_to_id_transmission_time at h
    rw [if_neg hR2.ne'] at h
    rw [← Option.some.inj h]
    exact div_nonneg (mul_nonneg (mul_nonneg hw0 hx0) hd) hR2.le
  · exact mul_nonneg (mul_nonneg hP1 ht1) htt
  · exact mul_nonneg (mul_nonneg hP2 ht4) htt
  · exact add_nonneg ht1 (le_trans ht2 (le_max_left _ _))
  · exact le_trans ha (le_max_left _ _)

/-- Witness for the amended C3 with every input equal to `1`. -/
theorem time_energy_nonneg_witness :
    0 ≤ calculate_task_execution_energy_consumption_on_local 1 1 1 1 :=
  (time_energy_nonneg 1 1 1 1 1 1 1 1 1 1 1 1 1 1 1 1 1 1 1
    (by norm_num) (by norm_num) (by norm_num) (by norm_num) (by norm_num)
    (by norm_num) (by norm_num) (by norm_num) (by norm_num) (by norm_num)
    (by norm_num) (by norm_num) (by norm_num) (by norm_num) (by norm_num)
    (by norm_num) (by norm_num) (by norm_num) (by norm_num) (by norm_num)
    (by norm_num)).2.2.1
